import Mathlib

/-
Verification development for the EJBCA MCP server (src/ejbca-mcp-server.py).
The Python source is shallowly embedded below: every definition is traced
from the corresponding function in the source file; line numbers in the
doc comments refer to src/ejbca-mcp-server.py.
-/

set_option maxRecDepth 4096

/-- Model of a Python runtime value as it occurs in this program:
JSON-decoded data (dict / list / str / int / bool / None) plus `bytes`
for binary HTTP response content. -/
inductive PyVal where
  | obj : List (String × PyVal) → PyVal
  | arr : List PyVal → PyVal
  | str : String → PyVal
  | int : Int → PyVal
  | bool : Bool → PyVal
  | none : PyVal
  | bytes : List Nat → PyVal

/-- Python dict assignment `d[k] = v` on an association list: replaces the
existing entry for `k` in place, otherwise appends (insertion order). -/
def assocSet (l : List (String × PyVal)) (k : String) (v : PyVal) :
    List (String × PyVal) :=
  match l with
  | [] => [(k, v)]
  | (k', v') :: rest => if k' = k then (k, v) :: rest else (k', v') :: assocSet rest k v

/-- Python `d.pop(k, None)` key removal (the value is discarded by the caller
separately where needed). -/
def popKey (l : List (String × PyVal)) (k : String) : List (String × PyVal) :=
  match l with
  | [] => []
  | (k', v) :: rest => if k' = k then rest else (k', v) :: popKey rest k

/-- Python `d.get(k)` on a dict value; `Option.none` when the key is absent
(`None` in Python) or the value is not a dict. -/
def pyGet (v : PyVal) (k : String) : Option PyVal :=
  match v with
  | .obj f => f.lookup k
  | _ => Option.none

/-- Python `d.get(k, default)`. -/
def pyGetD (f : List (String × PyVal)) (k : String) (d : PyVal) : PyVal :=
  (f.lookup k).getD d

/-- Python truthiness of an optional value (`None` is falsy). -/
def pyTruthy : Option PyVal → Bool
  | Option.none => false
  | some v =>
    match v with
    | .obj f => !f.isEmpty
    | .arr l => !l.isEmpty
    | .str s => s != ""
    | .int n => n != 0
    | .bool b => b
    | .none => false
    | .bytes l => !l.isEmpty

/-- Python `status_code == 200` where `status_code = result.get("_status_code", "N/A")`:
only an actual int 200 compares equal (a string never does, and Python bools
are the ints 0/1, never 200). -/
def isStatus200 : Option PyVal → Bool
  | some (.int n) => n == 200
  | _ => false

/-- Whether a Python value is a dict (`isinstance(result, dict)`). -/
def isObj : PyVal → Bool
  | .obj _ => true
  | _ => false

/-- Python string slicing `s[:n]` (by code points). -/
def strTake (s : String) (n : Nat) : String :=
  (s.toList.take n).asString

/-- Python `s.startswith(pre)` (by code points). -/
def pyStartsWith (s pre : String) : Bool :=
  pre.toList.isPrefixOf s.toList

/-- Python type name, used in the TypeError message raised by
`value["key"] = ...` on a non-dict value. -/
def pyTypeName : PyVal → String
  | .obj _ => "dict"
  | .arr _ => "list"
  | .str _ => "str"
  | .int _ => "int"
  | .bool _ => "bool"
  | .none => "NoneType"
  | .bytes _ => "bytes"

/-- A single-quote character as a string (kept out of string literals). -/
def squo : String := String.singleton (Char.ofNat 39)

/-- CPython TypeError message for item assignment on a non-dict value. -/
def pyTypeErrorMsg (v : PyVal) : String :=
  squo ++ pyTypeName v ++ squo ++ " object does not support item assignment"

/-- Tool arguments as they arrive through the MCP schema: every parameter of
this server is declared of type string, boolean or integer in the tool
input schemas (lines 402-678). -/
inductive ArgVal where
  | s : String → ArgVal
  | b : Bool → ArgVal
  | i : Int → ArgVal
deriving DecidableEq

/-- Python `str(v)` for schema-typed argument values (used where the code
interpolates an argument into an f-string or a query value). -/
def avStr : ArgVal → String
  | .s v => v
  | .b v => if v then "True" else "False"
  | .i n => toString n

/-- Python truthiness of a schema-typed argument value. -/
def avTruthy : ArgVal → Bool
  | .s v => v != ""
  | .b v => v
  | .i n => n != 0

/-- Integer reading of a schema-typed argument value (Python bools are ints;
a string-valued integer argument falls outside the declared schema type and
is not exercised by this development). -/
def avInt : ArgVal → Int
  | .i n => n
  | .b v => if v then 1 else 0
  | .s _ => 0

abbrev Args := List (String × ArgVal)

/-- Python `arguments[k]`: raises KeyError when the key is absent. -/
def getItem (args : Args) (k : String) : Except String ArgVal :=
  match args.lookup k with
  | some v => .ok v
  | Option.none => .error ("KeyError: " ++ k)

/-! ## Percent-encoding: urllib.parse.quote with the safe set empty (lines 232-233 etc.) -/

/-- The characters urllib.parse.quote never encodes (ASCII alphanumerics
and underscore, dot, hyphen, tilde); with the safe set empty every other
character is percent-encoded. -/
def isAlwaysSafe (c : Char) : Bool :=
  c.isAlphanum || c == Char.ofNat 95 || c == Char.ofNat 46 ||
    c == Char.ofNat 45 || c == Char.ofNat 126

/-- Uppercase hexadecimal digit. -/
def hexDigitU (n : Nat) : Char :=
  if n < 10 then Char.ofNat (48 + n) else Char.ofNat (55 + n)

/-- Lowercase hexadecimal digit. -/
def hexDigitL (n : Nat) : Char :=
  if n < 10 then Char.ofNat (48 + n) else Char.ofNat (87 + n)

/-- UTF-8 encoding of a Unicode code point (quote encodes the string to
UTF-8 before percent-encoding each byte). -/
def utf8Bytes (n : Nat) : List Nat :=
  if n < 0x80 then [n]
  else if n < 0x800 then [0xC0 + n / 0x40, 0x80 + n % 0x40]
  else if n < 0x10000 then
    [0xE0 + n / 0x1000, 0x80 + (n / 0x40) % 0x40, 0x80 + n % 0x40]
  else
    [0xF0 + n / 0x40000, 0x80 + (n / 0x1000) % 0x40,
     0x80 + (n / 0x40) % 0x40, 0x80 + n % 0x40]

/-- A percent-escape `%XX` (uppercase, as produced by `urllib.parse.quote`). -/
def pctByte (b : Nat) : String :=
  "%" ++ String.singleton (hexDigitU (b / 16)) ++ String.singleton (hexDigitU (b % 16))

/-- Percent-encoding of one character with no character treated as safe. -/
def quoteChar (c : Char) : String :=
  if isAlwaysSafe c then String.singleton c
  else String.join ((utf8Bytes c.toNat).map pctByte)

/-- Model of urllib.parse.quote applied to s with the safe set empty. -/
def urlQuote (s : String) : String :=
  String.join (s.toList.map quoteChar)

/-! ## Client configuration (EJBCARestClient.__init__, lines 47-73) -/

/-- Configuration of the client: base URL (after stripping trailing
slashes), credential file paths and the `os.path.exists` results for
them. -/
structure ClientConfig where
  baseUrl : String
  certPath : String
  keyPath : String
  certExists : Bool
  keyExists : Bool

/-- Model of self.has_certificates (lines 53-56): both paths truthy and
both files present on disk. -/
def hasCertificates (c : ClientConfig) : Bool :=
  (c.certPath != "") && (c.keyPath != "") && c.certExists && c.keyExists

/-! ## Request descriptors built by the client methods (lines 193-390) -/

/-- The request each client method hands to `_make_request`: HTTP method,
relative endpoint, query parameters (`params=`) and JSON body (`json=`).
Both JSON bodies in this program are flat string-to-string objects. -/
structure RequestDescriptor where
  method : String
  endpoint : String
  params : List (String × String)
  body : Option (List (String × String))
deriving DecidableEq

/-- GET certificate/status (line 198). -/
def certificate_api_status_request : RequestDescriptor :=
  ⟨"GET", "certificate/status", [], Option.none⟩

/-- GET ca (line 205). -/
def ca_list_request : RequestDescriptor :=
  ⟨"GET", "ca", [], Option.none⟩

/-- GET ca/version (line 212). -/
def ca_version_request : RequestDescriptor :=
  ⟨"GET", "ca/version", [], Option.none⟩

/-- GET certificate/search with criteria as query params (line 224). -/
def search_certificates_request (criteria : List (String × String)) : RequestDescriptor :=
  ⟨"GET", "certificate/search", criteria, Option.none⟩

/-- get_certificate_by_serial (lines 226-238): issuer-DN path when the DN is
truthy, the serialnumber path otherwise (`None` or the empty string). -/
def get_certificate_by_serial_request (serial : String) (issuer : Option String) :
    RequestDescriptor :=
  match issuer with
  | some dn =>
    if dn = "" then ⟨"GET", "certificate/serialnumber/" ++ serial, [], Option.none⟩
    else ⟨"GET", "certificate/" ++ urlQuote dn ++ "/" ++ serial, [], Option.none⟩
  | Option.none => ⟨"GET", "certificate/serialnumber/" ++ serial, [], Option.none⟩

/-- get_certificate_status (lines 240-248). -/
def get_certificate_status_request (issuer serial : String) : RequestDescriptor :=
  ⟨"GET", "certificate/" ++ urlQuote issuer ++ "/" ++ serial ++ "/revocationstatus",
   [], Option.none⟩

/-- revoke_certificate (lines 250-261): PUT with body `{"reason": reason}`;
the reason string is passed through without any validation. -/
def revoke_certificate_request (issuer serial reason : String) : RequestDescriptor :=
  ⟨"PUT", "certificate/" ++ urlQuote issuer ++ "/" ++ serial ++ "/revoke",
   [], some [("reason", reason)]⟩

/-- get_latest_crl (lines 264-286): query has `deltaCrl=true` only when the
delta flag is set and `crlPartitionIndex` only when the index is nonzero. -/
def get_latest_crl_request (issuer : String) (delta : Bool) (idx : Int) :
    RequestDescriptor :=
  ⟨"GET", "ca/" ++ urlQuote issuer ++ "/getLatestCrl",
   (if delta then [("deltaCrl", "true")] else []) ++
   (if idx ≠ 0 then [("crlPartitionIndex", toString idx)] else []),
   Option.none⟩

/-- get_crl (lines 288-314): with a truthy issuer DN, `ca/{dn}/getcrl` with
the same optional query rules; otherwise the default-CA path `ca/crl` with
no query parameters at all (both flags are ignored on that branch). -/
def get_crl_request (issuer : Option String) (delta : Bool) (idx : Int) :
    RequestDescriptor :=
  match issuer with
  | some dn =>
    if dn = "" then ⟨"GET", "ca/crl", [], Option.none⟩
    else
      ⟨"GET", "ca/" ++ urlQuote dn ++ "/getcrl",
       (if delta then [("deltaCrl", "true")] else []) ++
       (if idx ≠ 0 then [("crlPartitionIndex", toString idx)] else []),
       Option.none⟩
  | Option.none => ⟨"GET", "ca/crl", [], Option.none⟩

/-- create_crl (lines 316-335): POST `ca/{dn}/createcrl` with lowercase
`deltacrl` query key, only when the delta flag is set. -/
def create_crl_request (issuer : String) (delta : Bool) : RequestDescriptor :=
  ⟨"POST", "ca/" ++ urlQuote issuer ++ "/createcrl",
   (if delta then [("deltacrl", "true")] else []), Option.none⟩

/-- get_crl_info (lines 337-345). -/
def get_crl_info_request (issuer : String) : RequestDescriptor :=
  ⟨"GET", "ca/" ++ urlQuote issuer ++ "/crlinfo", [], Option.none⟩

/-- get_ca_certificate (lines 347-355). -/
def get_ca_certificate_request (dn : String) : RequestDescriptor :=
  ⟨"GET", "ca/" ++ urlQuote dn ++ "/certificate/download", [], Option.none⟩

/-- get_ca_certificates (lines 357-365). -/
def get_ca_certificates_request (dn : String) : RequestDescriptor :=
  ⟨"GET", "ca/" ++ urlQuote dn ++ "/certificate", [], Option.none⟩

/-- enroll_certificate (lines 367-390): a falsy username (omitted or empty)
is replaced by `mcp_user_` plus the current timestamp; `stamp` stands for
`datetime.now().strftime` at second precision. -/
def enroll_certificate_request (csr caName certProfile eeProfile : String)
    (username : Option String) (stamp : String) : RequestDescriptor :=
  let uname :=
    match username with
    | some u => if u = "" then "mcp_user_" ++ stamp else u
    | Option.none => "mcp_user_" ++ stamp
  ⟨"POST", "certificate/enroll", [],
   some [("certificateRequest", csr), ("certificateAuthorityName", caName),
         ("certificateProfileName", certProfile), ("endEntityProfileName", eeProfile),
         ("username", uname), ("password", "mcp_temp_password")]⟩

/-! ## Fallback channel (_curl_fallback, lines 75-127) -/

/-- The observable outcome of `subprocess.run` for the curl command:
exit code, captured stdout/stderr (text mode), together with the result of
`json.loads(stdout)` — `some v` when stdout parses as JSON, `Option.none`
when `json.loads` raises JSONDecodeError. -/
structure CurlResult where
  returncode : Int
  stdout : String
  stderr : String
  stdoutJson : Option PyVal

/-- How the external curl process invocation ended: normal completion,
`subprocess.TimeoutExpired`, or some other exception with its message. -/
inductive CurlRun where
  | completed : CurlResult → CurlRun
  | timedOut : CurlRun
  | failed : String → CurlRun

/-- Model of _curl_fallback (lines 75-127). Without credentials it refuses at once.
Otherwise: exit code 0 AND non-empty stdout ⇒ parse stdout as JSON and tag
`_method = curl` (a non-dict JSON value makes the tagging assignment raise
TypeError, caught by the enclosing except as a curl error); unparsable
stdout becomes a raw-text success dict; any other exit status becomes an
error dict reporting the exit code. -/
def curl_fallback (hc : Bool) (run : CurlRun) : PyVal :=
  if hc = false then
    .obj [("error", .str "No certificates available for authentication")]
  else
    match run with
    | .completed r =>
      if r.returncode = 0 ∧ r.stdout ≠ "" then
        match r.stdoutJson with
        | some v =>
          match v with
          | .obj f => .obj (assocSet f "_method" (.str "curl"))
          | other =>
            .obj [("error", .str ("Curl command failed: " ++ pyTypeErrorMsg other)),
                  ("_method", .str "curl")]
        | Option.none =>
          .obj [("response", .str r.stdout), ("success", .bool true),
                ("_method", .str "curl")]
      else
        .obj [("error", .str ("Curl failed (exit code: " ++ toString r.returncode ++ ")")),
              ("stderr", .str r.stderr), ("_method", .str "curl")]
    | .timedOut => .obj [("error", .str "Request timed out"), ("_method", .str "curl")]
    | .failed msg =>
      .obj [("error", .str ("Curl command failed: " ++ msg)), ("_method", .str "curl")]

/-! ## Primary channel and _make_request (lines 129-189) -/

/-- The observable parts of a `requests` response: status code, the result of
`response.json()` (`Option.none` = JSONDecodeError), `response.content`
(bytes), `response.text`, and the content-type header (`Option.none` when
absent, as `headers.get` returns None). -/
structure HttpResponse where
  status : Nat
  jsonResult : Option PyVal
  content : List Nat
  text : String
  contentType : Option String

/-- How the primary-channel attempt ended: a response, or an exception
raised by the requests library (network error, TLS failure, timeout). -/
inductive PrimaryAttempt where
  | resp : HttpResponse → PrimaryAttempt
  | raise : PrimaryAttempt

/-- The header value stored in the binary-CRL dict
(the content-type entry of response.headers, None when absent). -/
def ctVal : Option String → PyVal
  | some s => .str s
  | Option.none => .none

/-- Lines 152-153: tag `_method` and `_status_code` onto the parsed JSON
body. The first assignment raises TypeError when the value is not a dict
(`Option.none` here); on a dict both assignments succeed. -/
def tagMeta (v : PyVal) (status : Nat) : Option PyVal :=
  match v with
  | .obj f =>
    some (.obj (assocSet (assocSet f "_method" (.str "requests"))
                         "_status_code" (.int status)))
  | _ => Option.none

/-- Model of _make_request (lines 129-189), returning the result dict together with
the number of `_curl_fallback` invocations (0 or 1; the code has a single
fallback call site at line 189, reached when the primary channel is skipped
for missing credentials or raises, including the TypeError from tagging a
non-dict JSON body). A non-200 status is returned as a backend error dict
without touching the fallback. -/
def make_request (hc : Bool) (baseUrl : String) (req : RequestDescriptor)
    (primary : PrimaryAttempt) (run : CurlRun) : PyVal × Nat :=
  if hc then
    match primary with
    | .resp r =>
      if r.status = 200 then
        match r.jsonResult with
        | some v =>
          match tagMeta v r.status with
          | some tagged => (tagged, 0)
          | Option.none => (curl_fallback hc run, 1)
        | Option.none =>
          if pyStartsWith (r.contentType.getD "") "application/pkix-crl" then
            (.obj [("crl_data", .bytes r.content),
                   ("content_type", ctVal r.contentType),
                   ("content_length", .int r.content.length),
                   ("success", .bool true),
                   ("_method", .str "requests"),
                   ("_status_code", .int r.status)], 0)
          else
            (.obj [("response", .str r.text),
                   ("success", .bool true),
                   ("_method", .str "requests"),
                   ("_status_code", .int r.status)], 0)
      else
        (.obj [("error", .str ("HTTP " ++ toString r.status)),
               ("message", .str (if r.text = "" then "" else strTake r.text 500)),
               ("_method", .str "requests"),
               ("_status_code", .int r.status),
               ("_url", .str (baseUrl ++ "/ejbca/ejbca-rest-api/v1/" ++ req.endpoint))], 0)
    | .raise => (curl_fallback hc run, 1)
  else (curl_fallback hc run, 1)

/-! ## Response formatting (handle_call_tool, lines 827-867) -/

/-- The envelope classification (lines 832-845). -/
inductive Classification where
  | success
  | error
  | warning
deriving DecidableEq

/-- Classification of a dict result, in priority order: an `error` key ⇒
ERROR; a truthy `success` value or `_status_code` 200 ⇒ SUCCESS;
otherwise WARNING (lines 832-840). -/
def classifyFields (f : List (String × PyVal)) : Classification :=
  if (f.lookup "error").isSome then .error
  else if pyTruthy (f.lookup "success") || isStatus200 (f.lookup "_status_code") then .success
  else .warning

/-- Classification of any result value; a non-dict result is SUCCESS
(lines 841-845). -/
def classify : PyVal → Classification
  | .obj f => classifyFields f
  | _ => .success

/-- One escaped byte of a CPython `bytes` repr with delimiter `quote`:
backslash and the delimiter are backslash-escaped, tab/newline/return use
their short escapes, printable ASCII is kept, everything else is `\xHH`
with lowercase hex. -/
def byteEscape (quote : Nat) (b : Nat) : String :=
  if b = 92 then "\\\\"
  else if b = quote then "\\" ++ String.singleton (Char.ofNat quote)
  else if b = 9 then "\\t"
  else if b = 10 then "\\n"
  else if b = 13 then "\\r"
  else if 32 ≤ b ∧ b < 127 then String.singleton (Char.ofNat b)
  else "\\x" ++ String.singleton (hexDigitL (b / 16)) ++ String.singleton (hexDigitL (b % 16))

/-- CPython `repr`/`str` of a bytes value (what the f-string at line 858
produces): `b` plus quoted escaped content; the delimiter switches to a
double quote when the bytes contain a single quote but no double quote. -/
def bytesRepr (bs : List Nat) : String :=
  let q : Nat := if bs.contains 39 ∧ ¬ bs.contains 34 then 34 else 39
  "b" ++ String.singleton (Char.ofNat q) ++ String.join (bs.map (byteEscape q)) ++
    String.singleton (Char.ofNat q)

/-- Line 858: the preview of binary CRL data — the first 50 bytes followed
by an ellipsis when longer than 50 bytes, else the full repr. -/
def crlPreviewBytes (bs : List Nat) : String :=
  if bs.length > 50 then bytesRepr (bs.take 50) ++ "..." else bytesRepr bs

/-- Line 858 when the `crl_data` value is a string (possible only if the
backend JSON itself carried such a key): Python slices and interpolates it
directly. -/
def crlPreviewStr (s : String) : String :=
  if s.length > 50 then strTake s 50 ++ "..." else s

/-- Lines 850-852: the three internal keys popped from the display dict. -/
def stripInternal (f : List (String × PyVal)) : List (String × PyVal) :=
  popKey (popKey (popKey f "_method") "_status_code") "_url"

/-- Display cleanup (lines 847-858): drop the internal `_method`,
`_status_code` and `_url` keys; when a `crl_data` key is present, replace it
with `crl_size_bytes` (its exact length) and `crl_data_preview`. `len()` on
a crl_data value that is neither bytes nor str raises TypeError (a
list-valued `crl_data`, which Python would preview via its repr, is not
modelled; no client output produces one). -/
def formatDisplay : PyVal → Except String PyVal
  | .obj f =>
    match (stripInternal f).lookup "crl_data" with
    | some (.bytes bs) =>
      .ok (.obj (assocSet (assocSet (popKey (stripInternal f) "crl_data")
                   "crl_size_bytes" (.int bs.length))
                   "crl_data_preview" (.str (crlPreviewBytes bs))))
    | some (.str s) =>
      .ok (.obj (assocSet (assocSet (popKey (stripInternal f) "crl_data")
                   "crl_size_bytes" (.int s.length))
                   "crl_data_preview" (.str (crlPreviewStr s))))
    | some other => .error ("TypeError: object of type " ++ pyTypeName other ++ " has no len()")
    | Option.none => .ok (.obj (stripInternal f))
  | v => .ok v

/-- What `handle_call_tool` hands back to the MCP layer: the unknown-tool
text (lines 821-825), a formatted envelope with its classification, method
tag, status tag and cleaned display body (lines 827-867), or the
exception-branch ERROR text (lines 869-876). -/
inductive RunOutput where
  | unknown : String → RunOutput
  | envelope : Classification → PyVal → PyVal → PyVal → RunOutput
  | failure : String → RunOutput

/-- Whether the output is the exception-branch ERROR text. -/
def RunOutput.isFailure : RunOutput → Bool
  | .failure _ => true
  | _ => false

/-- The classification carried by a formatted envelope output. -/
def outClass : RunOutput → Option Classification
  | .envelope c _ _ _ => some c
  | _ => Option.none

/-- Formatting of a computed result (lines 827-867): classification, method
and status tags are read off the dict (with the non-dict defaults of lines
841-845), then the display body is cleaned; a TypeError during cleanup
propagates to the except branch of the handler. -/
def formatOutput (result : PyVal) : Except String RunOutput :=
  match formatDisplay result with
  | .error e => .error e
  | .ok d =>
    match result with
    | .obj f =>
      .ok (.envelope (classifyFields f) (pyGetD f "_method" (.str "unknown"))
            (pyGetD f "_status_code" (.str "N/A")) d)
    | _ => .ok (.envelope .success (.str "unknown") (.str "N/A") d)

/-- Modelled from the spec: the RawOutcome channel identifier
(`primary`/`fallback`); the code tags outcomes with `_method` equal to
`requests` or `curl` respectively. -/
inductive Channel where
  | primary
  | fallback
deriving DecidableEq

/-- The channel named by the `_method` tag of a result dict. -/
def chanOf (v : PyVal) : Option Channel :=
  match pyGet v "_method" with
  | some (.str "requests") => some .primary
  | some (.str "curl") => some .fallback
  | _ => Option.none

/-! ## Dispatcher (handle_call_tool, lines 680-876) -/

/-- The environment a tool invocation runs against: the client configuration
and, for the k-th transport call of the invocation, the primary-channel
outcome and the curl-process outcome; `nowStamp` is the timestamp used by
enrollment username generation. -/
structure World where
  cfg : ClientConfig
  primaries : Nat → PrimaryAttempt
  curls : Nat → CurlRun
  nowStamp : String

/-- One client-method transport call: `_make_request` against the k-th
oracle entries (the result dict only; the fallback count is internal). -/
def clientCall (w : World) (k : Nat) (req : RequestDescriptor) : PyVal :=
  (make_request (hasCertificates w.cfg) w.cfg.baseUrl req (w.primaries k) (w.curls k)).1

/-- The recommendation list built by the troubleshoot handler
(lines 730-740), in order, each rule independently evaluated. -/
def troubleshootRecommendations (cfg : ClientConfig) (certE keyE : Bool)
    (health ca : PyVal) : List String :=
  (if !(hasCertificates cfg) then
    ["Configure client certificates using EJBCA_CLIENT_CERT and EJBCA_CLIENT_KEY environment variables"]
   else []) ++
  (if !certE && (cfg.certPath != "") then
    ["Certificate file not found: " ++ cfg.certPath] else []) ++
  (if !keyE && (cfg.keyPath != "") then
    ["Private key file not found: " ++ cfg.keyPath] else []) ++
  (if pyTruthy (pyGet health "error") then
    ["Certificate API not accessible - check EJBCA_BASE_URL and certificate authentication"]
   else []) ++
  (if pyTruthy (pyGet ca "error") then
    ["CA API not accessible - verify EJBCA REST API is enabled"] else [])

/-- test_ejbca_connection (lines 687-698): two transport calls. -/
def toolTestConnection (w : World) : Except String (PyVal × Nat) :=
  let health := clientCall w 0 certificate_api_status_request
  let ca := clientCall w 1 ca_version_request
  .ok (.obj [("connection_test", .str "completed"),
             ("certificate_api_status", health),
             ("ca_version", ca),
             ("certificates_available", .bool (hasCertificates w.cfg)),
             ("base_url", .str w.cfg.baseUrl)], 2)

/-- troubleshoot_connection (lines 700-740): static file checks plus three
transport calls plus the recommendation rules. -/
def toolTroubleshoot (w : World) : Except String (PyVal × Nat) :=
  let certE := if w.cfg.certPath = "" then false else w.cfg.certExists
  let keyE := if w.cfg.keyPath = "" then false else w.cfg.keyExists
  let health := clientCall w 0 certificate_api_status_request
  let ca := clientCall w 1 ca_version_request
  let caList := clientCall w 2 ca_list_request
  .ok (.obj [("diagnostics", .obj
               [("base_url", .str w.cfg.baseUrl),
                ("cert_path", .str w.cfg.certPath),
                ("key_path", .str w.cfg.keyPath),
                ("cert_exists", .bool certE),
                ("key_exists", .bool keyE),
                ("certificates_available", .bool (hasCertificates w.cfg))]),
             ("api_tests", .obj
               [("certificate_status", health),
                ("ca_version", ca),
                ("ca_list", caList)]),
             ("recommendations", .arr
               ((troubleshootRecommendations w.cfg certE keyE health ca).map .str))], 3)

/-- search_certificates (lines 751-762): criteria assembled from the
optional arguments present. -/
def toolSearchCertificates (w : World) (args : Args) : Except String (PyVal × Nat) :=
  let criteria :=
    (match args.lookup "query" with
     | some v => [("query", avStr v)] | Option.none => []) ++
    (match args.lookup "max_results" with
     | some v => [("maxResults", avStr v)] | Option.none => []) ++
    (match args.lookup "subject_dn" with
     | some v => [("subjectDN", avStr v)] | Option.none => []) ++
    (match args.lookup "issuer_dn" with
     | some v => [("issuerDN", avStr v)] | Option.none => [])
  .ok (clientCall w 0 (search_certificates_request criteria), 1)

/-- get_certificate_by_serial (lines 764-768). -/
def toolGetCertificateBySerial (w : World) (args : Args) : Except String (PyVal × Nat) :=
  match getItem args "serial_number" with
  | .error e => .error e
  | .ok serial =>
    .ok (clientCall w 0 (get_certificate_by_serial_request (avStr serial)
          ((args.lookup "issuer_dn").map avStr)), 1)

/-- get_certificate_status (lines 770-774). -/
def toolGetCertificateStatus (w : World) (args : Args) : Except String (PyVal × Nat) :=
  match getItem args "issuer_dn" with
  | .error e => .error e
  | .ok issuer =>
    match getItem args "serial_number" with
    | .error e => .error e
    | .ok serial =>
      .ok (clientCall w 0 (get_certificate_status_request (avStr issuer) (avStr serial)), 1)

/-- revoke_certificate (lines 776-781): the reason argument defaults to
UNSPECIFIED and is passed through without any validation. -/
def toolRevokeCertificate (w : World) (args : Args) : Except String (PyVal × Nat) :=
  match getItem args "issuer_dn" with
  | .error e => .error e
  | .ok issuer =>
    match getItem args "serial_number" with
    | .error e => .error e
    | .ok serial =>
      let reason := match args.lookup "reason" with
        | some v => v | Option.none => ArgVal.s "UNSPECIFIED"
      .ok (clientCall w 0 (revoke_certificate_request (avStr issuer) (avStr serial)
            (avStr reason)), 1)

/-- get_crl (lines 783-788). -/
def toolGetCrl (w : World) (args : Args) : Except String (PyVal × Nat) :=
  let issuer := (args.lookup "issuer_dn").map avStr
  let delta := match args.lookup "delta_crl" with
    | some v => avTruthy v | Option.none => false
  let idx := match args.lookup "crl_partition_index" with
    | some v => avInt v | Option.none => 0
  .ok (clientCall w 0 (get_crl_request issuer delta idx), 1)

/-- get_latest_crl (lines 790-795). -/
def toolGetLatestCrl (w : World) (args : Args) : Except String (PyVal × Nat) :=
  match getItem args "issuer_dn" with
  | .error e => .error e
  | .ok issuer =>
    let delta := match args.lookup "delta_crl" with
      | some v => avTruthy v | Option.none => false
    let idx := match args.lookup "crl_partition_index" with
      | some v => avInt v | Option.none => 0
    .ok (clientCall w 0 (get_latest_crl_request (avStr issuer) delta idx), 1)

/-- create_crl (lines 797-801). -/
def toolCreateCrl (w : World) (args : Args) : Except String (PyVal × Nat) :=
  match getItem args "issuer_dn" with
  | .error e => .error e
  | .ok issuer =>
    let delta := match args.lookup "delta_crl" with
      | some v => avTruthy v | Option.none => false
    .ok (clientCall w 0 (create_crl_request (avStr issuer) delta), 1)

/-- get_crl_info (lines 803-804). -/
def toolGetCrlInfo (w : World) (args : Args) : Except String (PyVal × Nat) :=
  match getItem args "issuer_dn" with
  | .error e => .error e
  | .ok issuer => .ok (clientCall w 0 (get_crl_info_request (avStr issuer)), 1)

/-- get_ca_certificate (lines 806-807). -/
def toolGetCaCertificate (w : World) (args : Args) : Except String (PyVal × Nat) :=
  match getItem args "ca_subject_dn" with
  | .error e => .error e
  | .ok dn => .ok (clientCall w 0 (get_ca_certificate_request (avStr dn)), 1)

/-- get_ca_certificates (lines 809-810). -/
def toolGetCaCertificates (w : World) (args : Args) : Except String (PyVal × Nat) :=
  match getItem args "ca_subject_dn" with
  | .error e => .error e
  | .ok dn => .ok (clientCall w 0 (get_ca_certificates_request (avStr dn)), 1)

/-- enroll_certificate (lines 812-819). -/
def toolEnrollCertificate (w : World) (args : Args) : Except String (PyVal × Nat) :=
  match getItem args "certificate_request" with
  | .error e => .error e
  | .ok csr =>
    match getItem args "ca_name" with
    | .error e => .error e
    | .ok caName =>
      let certProfile := match args.lookup "certificate_profile" with
        | some v => avStr v | Option.none => "ENDUSER"
      let eeProfile := match args.lookup "end_entity_profile" with
        | some v => avStr v | Option.none => "EMPTY"
      let username := (args.lookup "username").map avStr
      .ok (clientCall w 0 (enroll_certificate_request (avStr csr) (avStr caName)
            certProfile eeProfile username w.nowStamp), 1)

/-- The dispatch chain of handle_call_tool (lines 687-825): the computed
result dict paired with the number of transport-executor
(`_make_request`) calls made, or the raised exception; `Option.none` is the
unknown-tool branch. In every branch all `arguments[...]` lookups are
evaluated before the first transport call, so a KeyError implies zero
transport calls. -/
def computeTool (w : World) (name : String) (args : Args) :
    Option (Except String (PyVal × Nat)) :=
  if name = "test_ejbca_connection" then some (toolTestConnection w)
  else if name = "troubleshoot_connection" then some (toolTroubleshoot w)
  else if name = "get_certificate_api_status" then
    some (.ok (clientCall w 0 certificate_api_status_request, 1))
  else if name = "get_ca_list" then
    some (.ok (clientCall w 0 ca_list_request, 1))
  else if name = "get_ca_version" then
    some (.ok (clientCall w 0 ca_version_request, 1))
  else if name = "search_certificates" then some (toolSearchCertificates w args)
  else if name = "get_certificate_by_serial" then some (toolGetCertificateBySerial w args)
  else if name = "get_certificate_status" then some (toolGetCertificateStatus w args)
  else if name = "revoke_certificate" then some (toolRevokeCertificate w args)
  else if name = "get_crl" then some (toolGetCrl w args)
  else if name = "get_latest_crl" then some (toolGetLatestCrl w args)
  else if name = "create_crl" then some (toolCreateCrl w args)
  else if name = "get_crl_info" then some (toolGetCrlInfo w args)
  else if name = "get_ca_certificate" then some (toolGetCaCertificate w args)
  else if name = "get_ca_certificates" then some (toolGetCaCertificates w args)
  else if name = "enroll_certificate" then some (toolEnrollCertificate w args)
  else Option.none

/-- handle_call_tool (lines 680-876): dispatch, then format; any exception
(KeyError from a missing required argument, TypeError during display
cleanup) becomes the except-branch ERROR output. The second component is
the number of transport calls performed (0 when a required-argument lookup
raised, since every lookup precedes the first transport call). -/
def handle_call_tool (w : World) (name : String) (args : Args) : RunOutput × Nat :=
  match computeTool w name args with
  | Option.none => (.unknown name, 0)
  | some (.error e) => (.failure e, 0)
  | some (.ok (result, k)) =>
    match formatOutput result with
    | .ok out => (out, k)
    | .error e => (.failure e, k)

/-- The required arguments of each registered tool, from the inputSchema
`required` lists (lines 402-678); unregistered names have none. -/
def requiredArgs (name : String) : List String :=
  if name = "get_certificate_by_serial" then ["serial_number"]
  else if name = "get_certificate_status" then ["issuer_dn", "serial_number"]
  else if name = "revoke_certificate" then ["issuer_dn", "serial_number"]
  else if name = "get_latest_crl" then ["issuer_dn"]
  else if name = "create_crl" then ["issuer_dn"]
  else if name = "get_crl_info" then ["issuer_dn"]
  else if name = "get_ca_certificate" then ["ca_subject_dn"]
  else if name = "get_ca_certificates" then ["ca_subject_dn"]
  else if name = "enroll_certificate" then ["certificate_request", "ca_name"]
  else []

/-! ## Sample environments used by witnesses and counterexamples -/

/-- A configuration whose credential files exist. -/
def cfgSample : ClientConfig :=
  ⟨"https://localhost:443", "/certs/client.pem", "/certs/client.key", true, true⟩

/-- A world with credentials where the primary channel raises and the curl
process times out. -/
def wSample : World :=
  ⟨cfgSample, fun _ => PrimaryAttempt.raise, fun _ => CurlRun.timedOut, "20250101_000000"⟩

/-- A configuration whose credential files are missing on disk. -/
def cfgNoCred : ClientConfig :=
  ⟨"https://localhost:443", "/certs/client.pem", "/certs/client.key", false, false⟩

/-- A world without usable credentials. -/
def wNoCred : World :=
  ⟨cfgNoCred, fun _ => PrimaryAttempt.raise, fun _ => CurlRun.timedOut, "20250101_000000"⟩

/-- Modelled from the spec: the fixed enumerated set of revocation reasons
that the spec says the revoke-certificate operation accepts. -/
def specValidRevocationReasons : List String :=
  ["UNSPECIFIED", "KEY_COMPROMISE", "CA_COMPROMISE", "AFFILIATION_CHANGED",
   "SUPERSEDED", "CESSATION_OF_OPERATION", "CERTIFICATE_HOLD",
   "REMOVE_FROM_CRL", "PRIVILEGE_WITHDRAWN", "AA_COMPROMISE"]

/-! ## Helper lemmas -/

theorem lookup_assocSet_self (l : List (String × PyVal)) (k : String) (v : PyVal) :
    (assocSet l k v).lookup k = some v := by
  induction l with
  | nil => simp [assocSet, List.lookup]
  | cons hd tl ih =>
    obtain ⟨k', v'⟩ := hd
    by_cases h : k' = k
    · simp [assocSet, h, List.lookup]
    · have hb : (k == k') = false := by
        rw [beq_eq_false_iff_ne]
        exact fun hh => h hh.symm
      simp [assocSet, h, List.lookup, hb, ih]

theorem lookup_assocSet_ne (l : List (String × PyVal)) (k a : String) (v : PyVal)
    (h : a ≠ k) : (assocSet l k v).lookup a = l.lookup a := by
  have hb : (a == k) = false := by
    rw [beq_eq_false_iff_ne]
    exact h
  induction l with
  | nil => simp [assocSet, List.lookup, hb]
  | cons hd tl ih =>
    obtain ⟨k', v'⟩ := hd
    by_cases hk : k' = k
    · subst hk
      simp [assocSet, List.lookup, hb]
    · simp [assocSet, hk, List.lookup, ih]

theorem lookup_popKey_ne (l : List (String × PyVal)) (k a : String)
    (h : a ≠ k) : (popKey l k).lookup a = l.lookup a := by
  have hb : (a == k) = false := by
    rw [beq_eq_false_iff_ne]
    exact h
  induction l with
  | nil => simp [popKey]
  | cons hd tl ih =>
    obtain ⟨k', v'⟩ := hd
    by_cases hk : k' = k
    · subst hk
      simp [popKey, List.lookup, hb]
    · simp [popKey, hk, List.lookup, ih]

/-- Every result produced by the fallback channel when credentials are
available carries the `_method = curl` tag, i.e. names the fallback
channel. -/
theorem chanOf_curl_fallback (run : CurlRun) :
    chanOf (curl_fallback true run) = some Channel.fallback := by
  cases run with
  | completed r =>
    simp only [curl_fallback]
    rw [if_neg (by simp)]
    by_cases h : r.returncode = 0 ∧ r.stdout ≠ ""
    · rw [if_pos h]
      cases hj : r.stdoutJson with
      | none => simp [chanOf, pyGet, List.lookup]
      | some v =>
        cases v <;>
          simp [chanOf, pyGet, List.lookup, lookup_assocSet_self]
    · rw [if_neg h]
      simp [chanOf, pyGet, List.lookup]
  | timedOut => simp [curl_fallback, chanOf, pyGet, List.lookup]
  | failed msg => simp [curl_fallback, chanOf, pyGet, List.lookup]

/-! ## Claim theorems -/

/-- C10: a fallback-channel curl process that completes with exit code 0 but
empty standard output yields an error outcome reporting the exit code, not
a success — a zero exit code alone is not sufficient. -/
theorem C10_zero_exit_empty_stdout_is_error (r : CurlResult)
    (h0 : r.returncode = 0) (hs : r.stdout = "") :
    curl_fallback true (.completed r) =
      .obj [("error", .str "Curl failed (exit code: 0)"),
            ("stderr", .str r.stderr), ("_method", .str "curl")] := by
  obtain ⟨rc, so, se, sj⟩ := r
  subst h0
  subst hs
  rfl

/-- Witness for C10 at a concrete curl result. -/
theorem C10_zero_exit_empty_stdout_is_error_witness :
    (0 : Int) = 0 ∧ ("" : String) = "" ∧
    curl_fallback true (.completed ⟨0, "", "", Option.none⟩) =
      .obj [("error", .str "Curl failed (exit code: 0)"),
            ("stderr", .str ""), ("_method", .str "curl")] :=
  ⟨rfl, rfl, C10_zero_exit_empty_stdout_is_error ⟨0, "", "", Option.none⟩ rfl rfl⟩

/-- C9: a primary-channel 200 response whose body parses as JSON to a
non-dict value makes the metadata-tagging assignment raise, so the primary
attempt fails and the fallback channel is invoked instead of the parsed
body being returned. -/
theorem C9_nonobject_json_falls_back (baseUrl : String) (req : RequestDescriptor)
    (v : PyVal) (content : List Nat) (text : String) (ct : Option String)
    (run : CurlRun) (h : isObj v = false) :
    tagMeta v 200 = Option.none ∧
    make_request true baseUrl req (.resp ⟨200, some v, content, text, ct⟩) run =
      (curl_fallback true run, 1) := by
  constructor
  · cases v <;> simp_all [tagMeta, isObj]
  · cases v <;> simp_all [make_request, tagMeta, isObj]

/-- Witness for C9: a JSON-array body at status 200 ends in the fallback. -/
theorem C9_nonobject_json_falls_back_witness :
    isObj (PyVal.arr []) = false ∧
    make_request true "https://localhost:443" ca_list_request
      (.resp ⟨200, some (PyVal.arr []), [], "[]", some "application/json"⟩)
      CurlRun.timedOut =
      (.obj [("error", .str "Request timed out"), ("_method", .str "curl")], 1) := by
  refine ⟨rfl, ?_⟩
  have h := C9_nonobject_json_falls_back "https://localhost:443" ca_list_request
      (PyVal.arr []) [] "[]" (some "application/json") CurlRun.timedOut rfl
  rw [h.2]
  rfl

/-- C4: a non-2xx status on the primary channel is returned as a backend
error outcome (error message `HTTP {status}`, status preserved) with zero
fallback invocations; an exception on the primary channel invokes the
fallback exactly once and the channel tag of the outcome reads fallback. -/
theorem C4_fallback_trigger (baseUrl : String) (req : RequestDescriptor)
    (r : HttpResponse) (run : CurlRun) (hs : r.status ≠ 200) :
    ((make_request true baseUrl req (.resp r) run).2 = 0 ∧
     pyGet (make_request true baseUrl req (.resp r) run).1 "error" =
       some (.str ("HTTP " ++ toString r.status)) ∧
     pyGet (make_request true baseUrl req (.resp r) run).1 "_status_code" =
       some (.int r.status)) ∧
    ((make_request true baseUrl req PrimaryAttempt.raise run).2 = 1 ∧
     (make_request true baseUrl req PrimaryAttempt.raise run).1 = curl_fallback true run ∧
     chanOf (make_request true baseUrl req PrimaryAttempt.raise run).1 =
       some Channel.fallback) := by
  refine ⟨?_, rfl, rfl, ?_⟩
  · simp [make_request, hs, pyGet, List.lookup]
  · show chanOf (curl_fallback true run) = some Channel.fallback
    exact chanOf_curl_fallback run

/-- Witness for C4 at a 404 response and a timed-out curl run. -/
theorem C4_fallback_trigger_witness :
    (404 : Nat) ≠ 200 ∧
    (make_request true "https://localhost:443" ca_list_request
      (.resp ⟨404, Option.none, [], "not found", Option.none⟩) CurlRun.timedOut).2 = 0 ∧
    (make_request true "https://localhost:443" ca_list_request
      PrimaryAttempt.raise CurlRun.timedOut).2 = 1 ∧
    chanOf (make_request true "https://localhost:443" ca_list_request
      PrimaryAttempt.raise CurlRun.timedOut).1 = some Channel.fallback := by
  have h := C4_fallback_trigger "https://localhost:443" ca_list_request
      ⟨404, Option.none, [], "not found", Option.none⟩ CurlRun.timedOut (by decide)
  exact ⟨by decide, h.1.1, h.2.1, h.2.2.2⟩

/-- C2 counterexample: the claim fails for the get-crl operation invoked
without an issuer DN — with crlPartitionIndex = 5 (nonzero) the default-CA
branch sends an empty query set, so the partition index is absent. -/
theorem C2_counterexample :
    (5 : Int) ≠ 0 ∧ (get_crl_request Option.none false 5).params = [] :=
  ⟨by decide, rfl⟩

/-- C2 as amended: for get-latest-crl, create-crl and get-crl with a
non-empty issuer DN, deltaCrl=false with crlPartitionIndex=0 gives an empty
query set, and a nonzero partition index always appears in the query
regardless of the delta flag; but get-crl without an issuer DN (the
default-CA branch) always sends an empty query set, ignoring both flags
(create-crl takes no partition index at all). -/
theorem C2_crl_query_params (dn dn' : String) (delta : Bool) (idx : Int)
    (hdn : dn ≠ "") (hidx : idx ≠ 0) :
    (get_latest_crl_request dn' false 0).params = [] ∧
    (get_crl_request (some dn) false 0).params = [] ∧
    (create_crl_request dn' false).params = [] ∧
    (get_latest_crl_request dn' delta idx).params.lookup "crlPartitionIndex" =
      some (toString idx) ∧
    (get_crl_request (some dn) delta idx).params.lookup "crlPartitionIndex" =
      some (toString idx) ∧
    (get_crl_request Option.none delta idx).params = [] := by
  refine ⟨rfl, ?_, rfl, ?_, ?_, rfl⟩
  · simp [get_crl_request, hdn]
  · cases delta <;> simp [get_latest_crl_request, hidx, List.lookup]
  · cases delta <;> simp [get_crl_request, hdn, hidx, List.lookup]

/-- Witness for C2 (amended) at concrete issuer DNs and partition index 7. -/
theorem C2_crl_query_params_witness :
    ("CN=Test CA" : String) ≠ "" ∧ (7 : Int) ≠ 0 ∧
    (get_latest_crl_request "CN=X" false 0).params = [] ∧
    (get_latest_crl_request "CN=X" true 7).params.lookup "crlPartitionIndex" =
      some "7" ∧
    (get_crl_request Option.none true 7).params = [] := by
  have h := C2_crl_query_params "CN=Test CA" "CN=X" true 7 (by decide) (by decide)
  exact ⟨by decide, by decide, h.1, h.2.2.2.1, h.2.2.2.2.2⟩


/-- C5: envelope classification follows the priority order — error key ⇒
ERROR; truthy success value or backend status 200 ⇒ SUCCESS; otherwise
WARNING — and consequently an envelope classified SUCCESS never carries an
error message in its display body. -/
theorem C5_classification_priority (f : List (String × PyVal)) :
    ((f.lookup "error").isSome → classifyFields f = .error) ∧
    ((f.lookup "error").isSome = false →
      (pyTruthy (f.lookup "success") || isStatus200 (f.lookup "_status_code")) = true →
      classifyFields f = .success) ∧
    ((f.lookup "error").isSome = false →
      (pyTruthy (f.lookup "success") || isStatus200 (f.lookup "_status_code")) = false →
      classifyFields f = .warning) ∧
    (∀ d, classifyFields f = .success → formatDisplay (.obj f) = .ok d →
      pyGet d "error" = Option.none) := by
  refine ⟨?_, ?_, ?_, ?_⟩
  · intro h
    simp [classifyFields, h]
  · intro h1 h2
    simp [classifyFields, h1, h2]
  · intro h1 h2
    simp [classifyFields, h1, h2]
  · intro d hcls hfmt
    have herr : f.lookup "error" = Option.none := by
      by_cases he : (f.lookup "error").isSome
      · exfalso
        have : classifyFields f = .error := by simp [classifyFields, he]
        rw [this] at hcls
        exact absurd hcls (by decide)
      · exact Option.not_isSome_iff_eq_none.mp he
    have hstrip : (stripInternal f).lookup "error" = Option.none := by
      rw [stripInternal,
          lookup_popKey_ne _ "_url" "error" (by decide),
          lookup_popKey_ne _ "_status_code" "error" (by decide),
          lookup_popKey_ne _ "_method" "error" (by decide), herr]
    simp only [formatDisplay] at hfmt
    split at hfmt
    · injection hfmt with hd
      subst hd
      simp only [pyGet]
      rw [lookup_assocSet_ne _ "crl_data_preview" "error" _ (by decide),
          lookup_assocSet_ne _ "crl_size_bytes" "error" _ (by decide),
          lookup_popKey_ne _ "crl_data" "error" (by decide), hstrip]
    · injection hfmt with hd
      subst hd
      simp only [pyGet]
      rw [lookup_assocSet_ne _ "crl_data_preview" "error" _ (by decide),
          lookup_assocSet_ne _ "crl_size_bytes" "error" _ (by decide),
          lookup_popKey_ne _ "crl_data" "error" (by decide), hstrip]
    · exact absurd hfmt (by simp)
    · injection hfmt with hd
      subst hd
      simp [pyGet, hstrip]

/-- Witness for C5 at a concrete error dict and a concrete success dict. -/
theorem C5_classification_priority_witness :
    classifyFields [("error", PyVal.str "HTTP 500")] = Classification.error ∧
    classifyFields [("success", PyVal.bool true)] = Classification.success ∧
    pyGet (PyVal.obj [("success", PyVal.bool true)]) "error" = Option.none := by
  refine ⟨(C5_classification_priority [("error", PyVal.str "HTTP 500")]).1 (by decide),
          ?_, ?_⟩
  · exact (C5_classification_priority [("success", PyVal.bool true)]).2.1
      (by decide) (by decide)
  · exact (C5_classification_priority [("success", PyVal.bool true)]).2.2.2
      (PyVal.obj [("success", PyVal.bool true)])
      ((C5_classification_priority [("success", PyVal.bool true)]).2.1
        (by decide) (by decide)) rfl

/-- C6: get-certificate-by-serial with a (non-empty) issuer DN builds the
path certificate/{encoded(issuerDN)}/{serial} where the DN is
percent-encoded with no characters treated as safe (equals sign, space and
slash are all escaped); without an issuer DN it builds
certificate/serialnumber/{serial}. -/
theorem C6_certificate_by_serial_paths (serial dn : String) (h : dn ≠ "") :
    get_certificate_by_serial_request serial (some dn) =
      ⟨"GET", "certificate/" ++ urlQuote dn ++ "/" ++ serial, [], Option.none⟩ ∧
    get_certificate_by_serial_request serial Option.none =
      ⟨"GET", "certificate/serialnumber/" ++ serial, [], Option.none⟩ ∧
    urlQuote "CN=Test CA" = "CN%3DTest%20CA" ∧
    urlQuote "/" = "%2F" := by
  refine ⟨?_, rfl, by decide, by decide⟩
  simp [get_certificate_by_serial_request, h]

/-- Witness for C6 at the worked example from the spec. -/
theorem C6_certificate_by_serial_paths_witness :
    ("CN=Test CA" : String) ≠ "" ∧
    get_certificate_by_serial_request "1A2B3C" (some "CN=Test CA") =
      ⟨"GET", "certificate/CN%3DTest%20CA/1A2B3C", [], Option.none⟩ ∧
    get_certificate_by_serial_request "1A2B3C" Option.none =
      ⟨"GET", "certificate/serialnumber/1A2B3C", [], Option.none⟩ := by
  have h := C6_certificate_by_serial_paths "1A2B3C" "CN=Test CA" (by decide)
  refine ⟨by decide, ?_, h.2.1⟩
  rw [h.1]
  decide

/-- C3 counterexample: on the fallback channel a revocation-list body
(curl standard output that is not JSON) is returned as plain text — no raw
bytes are preserved and no byte-length field exists, contradicting the
part of the claim that covers the fallback channel. -/
theorem C3_counterexample :
    curl_fallback true (.completed ⟨0, "FAKE-CRL-BODY", "", Option.none⟩) =
      .obj [("response", .str "FAKE-CRL-BODY"), ("success", .bool true),
            ("_method", .str "curl")] ∧
    pyGet (curl_fallback true (.completed ⟨0, "FAKE-CRL-BODY", "", Option.none⟩))
      "content_length" = Option.none :=
  ⟨rfl, rfl⟩

/-- C3 as amended: exact-byte-length preservation of
application/pkix-crl responses holds on the primary channel only — there
the raw bytes are kept and both the content_length of the outcome and the
crl_size_bytes of the envelope equal the exact byte count, independent of
preview truncation; the fallback channel parses curl stdout as JSON or
returns it as raw text and carries no byte-length field. -/
theorem C3_binary_crl_primary_only (baseUrl : String) (req : RequestDescriptor)
    (content : List Nat) (text : String) (ct : String) (run : CurlRun)
    (r : CurlResult)
    (hct : pyStartsWith ct "application/pkix-crl" = true)
    (hjson : r.stdoutJson = Option.none) (hout : r.stdout ≠ "") :
    (pyGet (make_request true baseUrl req
        (.resp ⟨200, Option.none, content, text, some ct⟩) run).1 "content_length" =
       some (.int content.length) ∧
     pyGet (make_request true baseUrl req
        (.resp ⟨200, Option.none, content, text, some ct⟩) run).1 "crl_data" =
       some (.bytes content) ∧
     (∀ d, formatDisplay (make_request true baseUrl req
        (.resp ⟨200, Option.none, content, text, some ct⟩) run).1 = .ok d →
       pyGet d "crl_size_bytes" = some (.int content.length))) ∧
    (pyGet (curl_fallback true (.completed r)) "content_length" = Option.none ∧
     pyGet (curl_fallback true (.completed r)) "crl_data" = Option.none) := by
  have hmr : (make_request true baseUrl req
      (.resp ⟨200, Option.none, content, text, some ct⟩) run).1 =
      .obj [("crl_data", .bytes content), ("content_type", .str ct),
            ("content_length", .int content.length), ("success", .bool true),
            ("_method", .str "requests"), ("_status_code", .int 200)] := by
    simp [make_request, hct, ctVal]
  constructor
  · rw [hmr]
    refine ⟨by simp [pyGet, List.lookup], by simp [pyGet, List.lookup], ?_⟩
    intro d hfmt
    have hstrip : stripInternal
        [("crl_data", PyVal.bytes content), ("content_type", PyVal.str ct),
         ("content_length", PyVal.int content.length), ("success", PyVal.bool true),
         ("_method", PyVal.str "requests"), ("_status_code", PyVal.int 200)] =
        [("crl_data", PyVal.bytes content), ("content_type", PyVal.str ct),
         ("content_length", PyVal.int content.length), ("success", PyVal.bool true)] := by
      simp [stripInternal, popKey]
    have hlook : (stripInternal
        [("crl_data", PyVal.bytes content), ("content_type", PyVal.str ct),
         ("content_length", PyVal.int content.length), ("success", PyVal.bool true),
         ("_method", PyVal.str "requests"), ("_status_code", PyVal.int 200)]).lookup
        "crl_data" = some (PyVal.bytes content) := by
      rw [hstrip]
      simp [List.lookup]
    simp only [formatDisplay, hlook] at hfmt
    injection hfmt with hd
    subst hd
    simp only [pyGet]
    rw [lookup_assocSet_ne _ "crl_data_preview" "crl_size_bytes" _ (by decide),
        lookup_assocSet_self]
  · obtain ⟨rc, so, se, sj⟩ := r
    simp only at hjson hout
    subst hjson
    by_cases h0 : rc = 0
    · subst h0
      simp [curl_fallback, hout, pyGet, List.lookup]
    · simp [curl_fallback, h0, pyGet, List.lookup]

/-- Witness for C3 (amended) at a 1200-byte revocation list (preview
truncated at 50 bytes) and a concrete fallback run. -/
theorem C3_binary_crl_primary_only_witness :
    pyStartsWith "application/pkix-crl" "application/pkix-crl" = true ∧
    pyGet (make_request true "https://localhost:443" ca_list_request
        (.resp ⟨200, Option.none, List.replicate 1200 48, "", some "application/pkix-crl"⟩)
        CurlRun.timedOut).1 "content_length" = some (.int 1200) ∧
    pyGet (curl_fallback true (.completed ⟨0, "FAKE-CRL-BODY", "", Option.none⟩))
      "crl_data" = Option.none := by
  have h := C3_binary_crl_primary_only "https://localhost:443" ca_list_request
      (List.replicate 1200 48) "" "application/pkix-crl" CurlRun.timedOut
      ⟨0, "FAKE-CRL-BODY", "", Option.none⟩ (by decide) rfl (by decide)
  exact ⟨by decide, by simpa using h.1.1, h.2.2⟩

/-- C1 counterexample: invoking revoke-certificate with the reason BOGUS —
a value outside the enumerated set — still builds the request (the bogus
reason ends up in the body) and makes one transport call, so the claimed
validation/rejection does not happen. -/
theorem C1_counterexample :
    "BOGUS" ∉ specValidRevocationReasons ∧
    (handle_call_tool wSample "revoke_certificate"
      [("issuer_dn", .s "CN=Test CA"), ("serial_number", .s "1A2B3C"),
       ("reason", .s "BOGUS")]).2 = 1 ∧
    (revoke_certificate_request "CN=Test CA" "1A2B3C" "BOGUS").body =
      some [("reason", "BOGUS")] :=
  ⟨by decide, by decide, rfl⟩

/-- C1 as amended: the revoke-certificate operation performs no validation
of the reason argument — any reason string, inside or outside the
enumerated set, is placed verbatim in the PUT request body and a transport
call is made (the reason merely defaults to UNSPECIFIED when omitted). -/
theorem C1_reason_passed_through (issuer serial reason : String) (w : World) :
    (revoke_certificate_request issuer serial reason).body =
      some [("reason", reason)] ∧
    (revoke_certificate_request issuer serial reason).method = "PUT" ∧
    (handle_call_tool w "revoke_certificate"
      [("issuer_dn", .s issuer), ("serial_number", .s serial),
       ("reason", .s reason)]).2 = 1 := by
  refine ⟨rfl, rfl, ?_⟩
  have hct : computeTool w "revoke_certificate"
      [("issuer_dn", ArgVal.s issuer), ("serial_number", ArgVal.s serial),
       ("reason", ArgVal.s reason)] =
      some (.ok (clientCall w 0
        (revoke_certificate_request issuer serial reason), 1)) := by
    simp [computeTool, toolRevokeCertificate, getItem, List.lookup, avStr]
  simp only [handle_call_tool, hct]
  split <;> rfl

/-- C7 counterexample: with the credential files missing, even a plain
get-ca-list call produces an envelope classified ERROR — credentials being
absent does lead to a hard ERROR classification, contrary to the claim. -/
theorem C7_counterexample :
    hasCertificates cfgNoCred = false ∧
    outClass (handle_call_tool wNoCred "get_ca_list" []).1 =
      some Classification.error :=
  ⟨rfl, by decide⟩

/-- C7 as amended: missing credential files do degrade the primary channel
to unavailable (the transport outcome is the refusal of the fallback, regardless
of what the primary channel would have answered) and the troubleshoot
operation surfaces the missing certificate file as a recommendation; but
ordinary operations then yield an ERROR envelope, because the fallback
channel refuses without the same credentials. -/
theorem C7_missing_credentials_degrade (cfg : ClientConfig) (baseUrl : String)
    (req : RequestDescriptor) (p : PrimaryAttempt) (run : CurlRun)
    (keyE : Bool) (health ca : PyVal)
    (hce : cfg.certExists = false) (hcp : cfg.certPath ≠ "") :
    hasCertificates cfg = false ∧
    make_request false baseUrl req p run =
      (.obj [("error", .str "No certificates available for authentication")], 1) ∧
    ("Certificate file not found: " ++ cfg.certPath) ∈
      troubleshootRecommendations cfg false keyE health ca := by
  refine ⟨?_, ?_, ?_⟩
  · simp [hasCertificates, hce]
  · cases p <;> rfl
  · have hb : (cfg.certPath != "") = true := by
      rw [bne_iff_ne]
      exact hcp
    simp [troubleshootRecommendations, hb, List.mem_append]

/-- Witness for C7 (amended) at the sample credential-less configuration. -/
theorem C7_missing_credentials_degrade_witness :
    cfgNoCred.certExists = false ∧ cfgNoCred.certPath ≠ "" ∧
    hasCertificates cfgNoCred = false ∧
    ("Certificate file not found: " ++ cfgNoCred.certPath) ∈
      troubleshootRecommendations cfgNoCred false false (.obj []) (.obj []) := by
  have h := C7_missing_credentials_degrade cfgNoCred "https://localhost:443"
      ca_list_request PrimaryAttempt.raise CurlRun.timedOut false (.obj []) (.obj [])
      rfl (by decide)
  exact ⟨rfl, by decide, h.1, h.2.2⟩

/-- C8: invoking any registered operation with a missing required argument
raises KeyError before the first transport call, so the handler returns the
exception-branch ERROR output and performs zero transport-executor calls
(operations without required arguments satisfy the claim vacuously). -/
theorem C8_missing_required_arg (w : World) (name : String) (args : Args)
    (r : String) (hr : r ∈ requiredArgs name)
    (hmiss : args.lookup r = Option.none) :
    (handle_call_tool w name args).1.isFailure = true ∧
    (handle_call_tool w name args).2 = 0 := by
  simp only [requiredArgs] at hr
  split_ifs at hr with h1 h2 h3 h4 h5 h6 h7 h8 h9
  · subst h1
    simp only [List.mem_singleton] at hr
    subst hr
    simp [handle_call_tool, computeTool, toolGetCertificateBySerial, getItem,
          hmiss, RunOutput.isFailure]
  · subst h2
    simp only [List.mem_cons, List.mem_singleton, List.not_mem_nil, or_false] at hr
    rcases hr with hr | hr
    · subst hr
      simp [handle_call_tool, computeTool, toolGetCertificateStatus, getItem,
            hmiss, RunOutput.isFailure]
    · subst hr
      cases hi : args.lookup "issuer_dn" with
      | none =>
        simp [handle_call_tool, computeTool, toolGetCertificateStatus, getItem,
              hi, RunOutput.isFailure]
      | some v =>
        simp [handle_call_tool, computeTool, toolGetCertificateStatus, getItem,
              hi, hmiss, RunOutput.isFailure]
  · subst h3
    simp only [List.mem_cons, List.mem_singleton, List.not_mem_nil, or_false] at hr
    rcases hr with hr | hr
    · subst hr
      simp [handle_call_tool, computeTool, toolRevokeCertificate, getItem,
            hmiss, RunOutput.isFailure]
    · subst hr
      cases hi : args.lookup "issuer_dn" with
      | none =>
        simp [handle_call_tool, computeTool, toolRevokeCertificate, getItem,
              hi, RunOutput.isFailure]
      | some v =>
        simp [handle_call_tool, computeTool, toolRevokeCertificate, getItem,
              hi, hmiss, RunOutput.isFailure]
  · subst h4
    simp only [List.mem_singleton] at hr
    subst hr
    simp [handle_call_tool, computeTool, toolGetLatestCrl, getItem,
          hmiss, RunOutput.isFailure]
  · subst h5
    simp only [List.mem_singleton] at hr
    subst hr
    simp [handle_call_tool, computeTool, toolCreateCrl, getItem,
          hmiss, RunOutput.isFailure]
  · subst h6
    simp only [List.mem_singleton] at hr
    subst hr
    simp [handle_call_tool, computeTool, toolGetCrlInfo, getItem,
          hmiss, RunOutput.isFailure]
  · subst h7
    simp only [List.mem_singleton] at hr
    subst hr
    simp [handle_call_tool, computeTool, toolGetCaCertificate, getItem,
          hmiss, RunOutput.isFailure]
  · subst h8
    simp only [List.mem_singleton] at hr
    subst hr
    simp [handle_call_tool, computeTool, toolGetCaCertificates, getItem,
          hmiss, RunOutput.isFailure]
  · subst h9
    simp only [List.mem_cons, List.mem_singleton, List.not_mem_nil, or_false] at hr
    rcases hr with hr | hr
    · subst hr
      simp [handle_call_tool, computeTool, toolEnrollCertificate, getItem,
            hmiss, RunOutput.isFailure]
    · subst hr
      cases hi : args.lookup "certificate_request" with
      | none =>
        simp [handle_call_tool, computeTool, toolEnrollCertificate, getItem,
              hi, RunOutput.isFailure]
      | some v =>
        simp [handle_call_tool, computeTool, toolEnrollCertificate, getItem,
              hi, hmiss, RunOutput.isFailure]
  · exact absurd hr (List.not_mem_nil r)

/-- Witness for C8: revoke-certificate invoked with no arguments at all. -/
theorem C8_missing_required_arg_witness :
    "issuer_dn" ∈ requiredArgs "revoke_certificate" ∧
    (([] : Args).lookup "issuer_dn" = Option.none) ∧
    (handle_call_tool wSample "revoke_certificate" []).1.isFailure = true ∧
    (handle_call_tool wSample "revoke_certificate" []).2 = 0 := by
  have h := C8_missing_required_arg wSample "revoke_certificate" [] "issuer_dn"
      (by decide) rfl
  exact ⟨by decide, rfl, h.1, h.2⟩
